import Mathlib

/-!
Verification development for the portfolio split-pane / canvas / feed code in
src/docs/js/main.js (and its earlier copy in src/unnamed/part_000).

JavaScript numbers are modelled as exact rationals.  Euclidean distances are
compared through their squares (for nonnegative bounds the comparison is
equivalent, and it keeps every definition executable).  Randomness
(Math.random) and the network are passed in as explicit oracle arguments.
-/

namespace Portfolio

/-! ### Split-pane controller (SplitPaneController, main.js lines 5-123) -/

/-- Constant MIN_SIZE_PERCENTAGE from the SplitPaneController constructor. -/
def MIN_SIZE_PERCENTAGE : ℚ := 20

/-- Constant MAX_SIZE_PERCENTAGE from the SplitPaneController constructor. -/
def MAX_SIZE_PERCENTAGE : ℚ := 80

/-- SplitPaneController.getBoundedPercentage (part_000 lines 96-99); main.js
inlines the same Math.max / Math.min expression at lines 89 and 98. -/
def getBoundedPercentage (percentage : ℚ) : ℚ :=
  max MIN_SIZE_PERCENTAGE (min MAX_SIZE_PERCENTAGE percentage)

/-- SplitPaneController.handleHorizontalResize (main.js lines 86-93): returns
the width percentages written to the primary and secondary sections. -/
def handleHorizontalResize (clientX containerWidth : ℚ) : ℚ × ℚ :=
  let percentage := clientX / containerWidth * 100
  let boundedPercentage := getBoundedPercentage percentage
  (boundedPercentage, 100 - boundedPercentage)

/-- SplitPaneController.handleVerticalResize (main.js lines 95-102): returns
the vh heights written to the primary and secondary sections. -/
def handleVerticalResize (clientY containerHeight : ℚ) : ℚ × ℚ :=
  let percentage := clientY / containerHeight * 100
  let boundedPercentage := getBoundedPercentage percentage
  (boundedPercentage, 100 - boundedPercentage)

/-- SplitPaneController.handleDragMove (main.js lines 54-62): no-op unless
dragging, otherwise dispatches on the viewport mode (isDesktopViewport).
The result is the pair of sizes written on the active axis. -/
def handleDragMove (isDragging desktop : Bool)
    (clientX clientY containerWidth containerHeight : ℚ) : Option (ℚ × ℚ) :=
  if isDragging then
    if desktop then some (handleHorizontalResize clientX containerWidth)
    else some (handleVerticalResize clientY containerHeight)
  else none

theorem getBoundedPercentage_bounds (p : ℚ) :
    MIN_SIZE_PERCENTAGE ≤ getBoundedPercentage p ∧
      getBoundedPercentage p ≤ MAX_SIZE_PERCENTAGE := by
  unfold getBoundedPercentage MIN_SIZE_PERCENTAGE MAX_SIZE_PERCENTAGE
  constructor
  · exact le_max_left _ _
  · exact max_le (by norm_num) (min_le_left _ _)

/-- C1: every drag-move processed in the Dragging state writes a bounded
percentage in [20, 80] to the primary section and the complement to the
secondary section, so the two sizes sum to exactly 100 units of the active
axis (width percent on desktop, vh otherwise). -/
theorem drag_move_bounded_and_complementary
    (desktop : Bool) (clientX clientY containerWidth containerHeight p s : ℚ)
    (h : handleDragMove true desktop clientX clientY containerWidth containerHeight
          = some (p, s)) :
    20 ≤ p ∧ p ≤ 80 ∧ p + s = 100 := by
  unfold handleDragMove at h
  cases desktop with
  | false =>
    simp only [if_true, if_false, Option.some.injEq] at h
    obtain ⟨hp, hs⟩ := Prod.mk.injEq .. ▸ (Option.some.inj h)
    refine ⟨?_, ?_, ?_⟩
    · rw [← hp]; exact (getBoundedPercentage_bounds _).1
    · rw [← hp]; exact (getBoundedPercentage_bounds _).2
    · rw [← hp, ← hs]; ring
  | true =>
    simp only [if_true, Option.some.injEq] at h
    obtain ⟨hp, hs⟩ := Prod.mk.injEq .. ▸ h
    refine ⟨?_, ?_, ?_⟩
    · rw [← hp]; exact (getBoundedPercentage_bounds _).1
    · rw [← hp]; exact (getBoundedPercentage_bounds _).2
    · rw [← hp, ← hs]; ring

/-- Witness for C1 at a concrete drag-move: pointer at x = 50 over a
container of width 100 in desktop mode yields the split (50, 50). -/
theorem drag_move_bounded_and_complementary_witness :
    (20 : ℚ) ≤ 50 ∧ (50 : ℚ) ≤ 80 ∧ (50 : ℚ) + 50 = 100 :=
  drag_move_bounded_and_complementary true 50 0 100 0 50 50 (by
    unfold handleDragMove handleHorizontalResize getBoundedPercentage
      MIN_SIZE_PERCENTAGE MAX_SIZE_PERCENTAGE
    norm_num)

/-! ### Touch listeners for the split pane

Two groups of listeners act on touch events (main.js): the ones registered in
SplitPaneController.initializeEventListeners (lines 24-43, with the
controller's isDragging flag) and the standalone DOMContentLoaded block
(lines 127-166, with its own module-level isDragging flag).  The state below
carries both flags; an event's step returns the new state together with
whether any listener called preventDefault on it. -/

/-- Where a touch event is targeted: the divider element or anywhere else.
Listeners added on the divider element fire only for divider-targeted
events; document-level listeners fire for every target. -/
inductive TouchTarget
  | divider
  | other
deriving DecidableEq

/-- Touch events relevant to the split pane: a touch-start on the divider,
a touch-move (with its target), a touch-end. -/
inductive TouchEvent
  | startOnDivider
  | move (t : TouchTarget)
  | endTouch
deriving DecidableEq

/-- The two drag flags: SplitPaneController.isDragging (main.js line 11) and
the DOMContentLoaded block's let isDragging (main.js line 131). -/
structure TouchFlags where
  ctrlDragging : Bool
  blockDragging : Bool
deriving DecidableEq

/-- One touch event processed by all registered listeners.  Returns the new
flag state and whether some listener called preventDefault:
touch-start on the divider (lines 24-29 and 136-144) always prevents and sets
both flags; touch-move is prevented by the controller listener iff
ctrlDragging (lines 31-38), by the block document listener iff blockDragging
(lines 146-155), and by the standalone divider listener always when the event
targets the divider (lines 163-165); touch-end (lines 40-43 and 157-160)
clears both flags and prevents nothing. -/
def touchStep (st : TouchFlags) : TouchEvent → TouchFlags × Bool
  | TouchEvent.startOnDivider => (⟨true, true⟩, true)
  | TouchEvent.move t =>
      (st, st.ctrlDragging || st.blockDragging || decide (t = TouchTarget.divider))
  | TouchEvent.endTouch => (⟨false, false⟩, false)

/-- Run a sequence of touch events from the initial page state (both drag
flags false). -/
def touchRun (evs : List TouchEvent) : TouchFlags :=
  evs.foldl (fun st e => (touchStep st e).1) ⟨false, false⟩

theorem touchRun_flags_agree (evs : List TouchEvent) :
    (touchRun evs).ctrlDragging = (touchRun evs).blockDragging := by
  suffices h : ∀ st : TouchFlags, st.ctrlDragging = st.blockDragging →
      (evs.foldl (fun st e => (touchStep st e).1) st).ctrlDragging
        = (evs.foldl (fun st e => (touchStep st e).1) st).blockDragging by
    exact h ⟨false, false⟩ rfl
  induction evs with
  | nil => intro st hst; simpa using hst
  | cons e evs ih =>
    intro st hst
    cases e with
    | startOnDivider => exact ih ⟨true, true⟩ rfl
    | move t => exact ih st hst
    | endTouch => exact ih ⟨false, false⟩ rfl

/-- C5 counterexample: from the initial (non-Dragging) state, a touch-move
targeting the divider is prevented by the standalone divider touchmove
listener (main.js lines 163-165) even though the controller is not Dragging,
so "touch-move suppresses default if and only if Dragging" fails. -/
theorem touch_move_prevented_while_not_dragging :
    (touchStep (touchRun []) (TouchEvent.move TouchTarget.divider)).2 = true ∧
      (touchRun []).ctrlDragging = false := by
  constructor
  · rfl
  · rfl

/-- C5 amended: in every reachable state, a touch-start on the divider always
prevents default; a touch-move is prevented iff the controller is Dragging or
the move targets the divider (whose standalone listener always prevents); a
touch-end always clears both drag flags. -/
theorem touch_listener_contract (evs : List TouchEvent) (t : TouchTarget) :
    (touchStep (touchRun evs) TouchEvent.startOnDivider).2 = true ∧
    (touchStep (touchRun evs) (TouchEvent.move t)).2
      = ((touchRun evs).ctrlDragging || decide (t = TouchTarget.divider)) ∧
    (touchStep (touchRun evs) TouchEvent.endTouch).1.ctrlDragging = false ∧
    (touchStep (touchRun evs) TouchEvent.endTouch).1.blockDragging = false := by
  refine ⟨rfl, ?_, rfl, rfl⟩
  show ((touchRun evs).ctrlDragging || (touchRun evs).blockDragging
      || decide (t = TouchTarget.divider))
    = ((touchRun evs).ctrlDragging || decide (t = TouchTarget.divider))
  rw [← touchRun_flags_agree evs, Bool.or_self]

/-! ### Standalone touch-drag handler (DOMContentLoaded block, main.js
lines 127-166) -/

/-- The document touchmove handler of the DOMContentLoaded block (main.js
lines 146-155), for a move processed while its drag flag is set: computes the
clamped new pixel height of the left (primary) panel and the height written
to the right (secondary) panel. -/
def blockTouchMove (startHeight innerHeight startY clientY : ℚ) : ℚ × ℚ :=
  let deltaY := clientY - startY
  let newHeight := max 100 (min (startHeight + deltaY) (innerHeight - 100))
  (newHeight, innerHeight - newHeight)

/-- C10: for a viewport of height at least 200 px, the standalone touch-drag
handler clamps the primary panel's pixel height to [100, innerHeight - 100]
and writes innerHeight minus that height to the secondary panel, so the two
pixel heights sum to the viewport height; this path enforces pixel bounds,
not the 20-80 percent bounds — e.g. clientY = 0 with startY = 450 and
startHeight = 500 on a 1000 px viewport yields a primary height of 100 px,
which is 10 percent of the viewport. -/
theorem block_touch_move_clamped (startHeight innerHeight startY clientY : ℚ)
    (h : 200 ≤ innerHeight) :
    (100 ≤ (blockTouchMove startHeight innerHeight startY clientY).1 ∧
     (blockTouchMove startHeight innerHeight startY clientY).1 ≤ innerHeight - 100 ∧
     (blockTouchMove startHeight innerHeight startY clientY).1
       + (blockTouchMove startHeight innerHeight startY clientY).2 = innerHeight) ∧
    (blockTouchMove 500 1000 450 0).1 / 1000 * 100 < 20 := by
  unfold blockTouchMove
  refine ⟨⟨le_max_left _ _, ?_, by ring⟩, by norm_num⟩
  exact max_le (by linarith) (min_le_right _ _)

/-- Witness for C10 on a 1000 px viewport: moving down by 50 px from a
300 px start height gives heights (350, 650). -/
theorem block_touch_move_clamped_witness :
    ((100 : ℚ) ≤ (blockTouchMove 300 1000 100 150).1 ∧
     (blockTouchMove 300 1000 100 150).1 ≤ 1000 - 100 ∧
     (blockTouchMove 300 1000 100 150).1
       + (blockTouchMove 300 1000 100 150).2 = 1000) ∧
    (blockTouchMove 500 1000 450 0).1 / 1000 * 100 < 20 :=
  block_touch_move_clamped 300 1000 100 150 (by norm_num)

/-! ### Canvas animation controller (CanvasAnimationController, main.js
lines 172-311) -/

/-- Squared Euclidean distance between two points.  The source compares
Math.hypot(dx, dy) against thresholds; since both sides are nonnegative,
comparing squared distances against squared thresholds is equivalent and
keeps the development in exact rational arithmetic. -/
def distSq (x1 y1 x2 y2 : ℚ) : ℚ :=
  (x1 - x2) ^ 2 + (y1 - y2) ^ 2

/-- A trailing dot record as pushed by createDots (main.js lines 207-218). -/
structure Dot where
  x : ℚ
  y : ℚ
  scale : ℚ
  color : String
  speed : ℚ
deriving DecidableEq

/-- CanvasAnimationController.createDots (main.js lines 207-218): five dots
at the mouse position with scale 1 - i*0.2, the rgba color string, and
speed 0.1 + i*0.02. -/
def createDots (mouseX mouseY : ℚ) : List Dot :=
  (List.range 5).map fun (i : Nat) =>
    { x := mouseX
      y := mouseY
      scale := 1 - (i : ℚ) * (2/10)
      color := "rgba(" ++ toString (135 - i * 10) ++ ", " ++ toString (206 - i * 5)
        ++ ", " ++ toString (235 - i * 12) ++ ", 0.6)"
      speed := 1/10 + (i : ℚ) * (2/100) }

/-- The per-dot body of CanvasAnimationController.updateDots (main.js lines
249-254): position += (mouse - position) * speed on each axis. -/
def updateDot (mouseX mouseY : ℚ) (d : Dot) : Dot :=
  { d with
    x := d.x + (mouseX - d.x) * d.speed
    y := d.y + (mouseY - d.y) * d.speed }

/-- CanvasAnimationController.updateDots (main.js lines 249-254). -/
def updateDots (mouseX mouseY : ℚ) (dots : List Dot) : List Dot :=
  dots.map (updateDot mouseX mouseY)

theorem updateDot_distSq_eq (mouseX mouseY : ℚ) (d : Dot) :
    distSq (updateDot mouseX mouseY d).x (updateDot mouseX mouseY d).y mouseX mouseY
      = (1 - d.speed) ^ 2 * distSq d.x d.y mouseX mouseY := by
  unfold updateDot distSq
  ring

/-- C8: every dot created by createDots has a speed factor strictly between 0
and 1, and for any dot whose speed lies in (0, 1), one application of the
dot-update step strictly decreases its (squared) distance to the fixed
pointer position whenever that distance is nonzero. -/
theorem updateDot_approaches_pointer (mouseX mouseY : ℚ) (d : Dot)
    (h0 : 0 < d.speed) (h1 : d.speed < 1)
    (hne : distSq d.x d.y mouseX mouseY ≠ 0) :
    distSq (updateDot mouseX mouseY d).x (updateDot mouseX mouseY d).y mouseX mouseY
        < distSq d.x d.y mouseX mouseY ∧
      ∀ d2 ∈ createDots mouseX mouseY, 0 < d2.speed ∧ d2.speed < 1 := by
  constructor
  · have hnonneg : (0 : ℚ) ≤ distSq d.x d.y mouseX mouseY := by
      unfold distSq; positivity
    have hpos : 0 < distSq d.x d.y mouseX mouseY := by
      rcases lt_or_eq_of_le hnonneg with h | h
      · exact h
      · exact absurd h.symm hne
    have hsq : (1 - d.speed) ^ 2 < 1 := by nlinarith
    rw [updateDot_distSq_eq]
    nlinarith
  · intro d2 hd2
    unfold createDots at hd2
    rw [List.mem_map] at hd2
    obtain ⟨i, hi, rfl⟩ := hd2
    rw [List.mem_range] at hi
    have hcases : i = 0 ∨ i = 1 ∨ i = 2 ∨ i = 3 ∨ i = 4 := by omega
    rcases hcases with rfl | rfl | rfl | rfl | rfl <;> norm_num

/-- Witness for C8: a dot at the origin with speed 1/2 moves from squared
distance 1 to squared distance 1/4 of the pointer at (1, 0). -/
theorem updateDot_approaches_pointer_witness :
    distSq (updateDot 1 0 ⟨0, 0, 1, "", 1/2⟩).x (updateDot 1 0 ⟨0, 0, 1, "", 1/2⟩).y 1 0
        < distSq (0 : ℚ) 0 1 0 ∧
      ∀ d2 ∈ createDots 1 0, 0 < d2.speed ∧ d2.speed < 1 :=
  updateDot_approaches_pointer 1 0 ⟨0, 0, 1, "", 1/2⟩ (by norm_num) (by norm_num)
    (by unfold distSq; norm_num)

/-- The fixed vocabulary this.designTerms (main.js lines 188-192). -/
def designTerms : List String :=
  ["UI Designer", "UX Design", "Motion", "Prototype",
   "Wireframe", "User Flow", "Research", "Figma",
   "Design System", "User Testing", "Interaction"]

/-- A floating word record as pushed by addText (main.js lines 285-291). -/
structure WordRecord where
  text : String
  x : ℚ
  y : ℚ
  rotation : ℚ
  alpha : ℚ
deriving DecidableEq

/-- The word-placement state of CanvasAnimationController: the usedWords Set,
the renderedWords array, and lastTextPosition (main.js lines 183-185). -/
structure CanvasState where
  usedWords : Finset String
  renderedWords : List WordRecord
  lastTextPosition : ℚ × ℚ
deriving DecidableEq

/-- CanvasAnimationController.addText (main.js lines 274-295).  The source
guard distance < 150 on Math.hypot is rendered as squared distance < 150^2.
The uniform pick Math.floor(Math.random() * availableTerms.length) is
modelled by an oracle pick reduced modulo the number of available terms, and
the rotation draw Math.random() * 40 - 20 by the oracle argument rotation. -/
def addText (st : CanvasState) (x y rotation : ℚ) (pick : Nat) : CanvasState :=
  if distSq x y st.lastTextPosition.1 st.lastTextPosition.2 < 150 ^ 2 then st
  else
    let availableTerms := designTerms.filter fun term => term ∉ st.usedWords
    if availableTerms.isEmpty then
      { st with usedWords := ∅ }
    else
      let text := availableTerms.getD (pick % availableTerms.length) ""
      { usedWords := insert text st.usedWords
        renderedWords := st.renderedWords ++ [⟨text, x, y, rotation, 0⟩]
        lastTextPosition := (x, y) }

/-- CanvasAnimationController.handleWordGeneration (main.js lines 267-271):
calls addText at (mouseX + 30, mouseY) only when the random draw exceeds
0.95 = 19/20 and the used-word set is not yet full. -/
def handleWordGeneration (st : CanvasState) (rand mouseX mouseY rotation : ℚ)
    (pick : Nat) : CanvasState :=
  if 19/20 < rand ∧ st.usedWords.card < designTerms.length then
    addText st (mouseX + 30) mouseY rotation pick
  else st

/-- The state in which every vocabulary word has been used, no word is on the
canvas, and the last placement position is the origin. -/
def exhaustedState : CanvasState :=
  { usedWords := designTerms.toFinset
    renderedWords := []
    lastTextPosition := (0, 0) }

theorem addText_picked_term_mem (st : CanvasState) (pick : Nat)
    (h : (designTerms.filter fun term => term ∉ st.usedWords).isEmpty = false) :
    (designTerms.filter fun term => term ∉ st.usedWords).getD
        (pick % (designTerms.filter fun term => term ∉ st.usedWords).length) ""
      ∈ designTerms.filter fun term => term ∉ st.usedWords := by
  have hne : (designTerms.filter fun term => term ∉ st.usedWords) ≠ [] := by
    intro hnil
    rw [hnil] at h
    exact Bool.false_ne_true (by simpa using h.symm)
  have hlen : 0 < (designTerms.filter fun term => term ∉ st.usedWords).length :=
    List.length_pos.mpr hne
  have hlt : pick % (designTerms.filter fun term => term ∉ st.usedWords).length
      < (designTerms.filter fun term => term ∉ st.usedWords).length :=
    Nat.mod_lt _ hlen
  rw [List.getD_eq_getElem _ _ hlt]
  exact List.getElem_mem _

/-- C9: word placement respects the minimum spacing and the vocabulary bound:
if the candidate position is within squared distance 150^2 of the last
placement, addText leaves the state unchanged (no label is placed); and
whenever the used-word set is drawn from the fixed vocabulary, it stays
inside the vocabulary after addText, so its size never exceeds the
vocabulary size (11) before a reset. -/
theorem addText_placement_invariants (st : CanvasState) (x y rotation : ℚ) (pick : Nat)
    (hsub : st.usedWords ⊆ designTerms.toFinset) :
    (distSq x y st.lastTextPosition.1 st.lastTextPosition.2 < 150 ^ 2 →
      addText st x y rotation pick = st) ∧
    (addText st x y rotation pick).usedWords ⊆ designTerms.toFinset ∧
    (addText st x y rotation pick).usedWords.card ≤ designTerms.length := by
  have hcard : designTerms.toFinset.card = designTerms.length := by decide
  by_cases hdist : distSq x y st.lastTextPosition.1 st.lastTextPosition.2 < 150 ^ 2
  · have heq : addText st x y rotation pick = st := by
      unfold addText; rw [if_pos hdist]
    refine ⟨fun _ => heq, ?_, ?_⟩
    · rw [heq]; exact hsub
    · rw [heq, ← hcard]; exact Finset.card_le_card hsub
  · refine ⟨fun h => absurd h hdist, ?_⟩
    unfold addText
    rw [if_neg hdist]
    by_cases hempty : (designTerms.filter fun term => term ∉ st.usedWords).isEmpty
    · rw [if_pos hempty]
      exact ⟨Finset.empty_subset _, by simp⟩
    · rw [if_neg hempty]
      have hmem := addText_picked_term_mem st pick (Bool.eq_false_iff.mpr hempty)
      have htermmem : (designTerms.filter fun term => term ∉ st.usedWords).getD
          (pick % (designTerms.filter fun term => term ∉ st.usedWords).length) ""
            ∈ designTerms.toFinset := by
        rw [List.mem_toFinset]
        exact List.mem_of_mem_filter hmem
      have hsub2 : insert ((designTerms.filter fun term => term ∉ st.usedWords).getD
          (pick % (designTerms.filter fun term => term ∉ st.usedWords).length) "")
            st.usedWords ⊆ designTerms.toFinset :=
        Finset.insert_subset htermmem hsub
      exact ⟨hsub2, hcard ▸ Finset.card_le_card hsub2⟩

/-- Witness for C9 from the initial empty word state: a placement attempt at
(1, 1) is within 150 px of the origin, so the state is unchanged, and the
used-word set stays within the 11-term vocabulary. -/
theorem addText_placement_invariants_witness :
    (distSq 1 1 ((0 : ℚ), (0 : ℚ)).1 ((0 : ℚ), (0 : ℚ)).2 < 150 ^ 2 →
      addText ⟨∅, [], (0, 0)⟩ 1 1 0 0 = ⟨∅, [], (0, 0)⟩) ∧
    (addText ⟨∅, [], (0, 0)⟩ 1 1 0 0).usedWords ⊆ designTerms.toFinset ∧
    (addText ⟨∅, [], (0, 0)⟩ 1 1 0 0).usedWords.card ≤ designTerms.length :=
  addText_placement_invariants ⟨∅, [], (0, 0)⟩ 1 1 0 0 (Finset.empty_subset _)

/-- C2 counterexample: in the exhausted state (all 11 vocabulary words used)
the word-generation step is a no-op — the guard usedWords.size <
designTerms.length (main.js line 268) blocks the call to addText — so the
used-word set is never reset: it stays equal to the full vocabulary instead
of being cleared. -/
theorem exhausted_vocabulary_never_resets :
    handleWordGeneration exhaustedState 1 1000 1000 0 0 = exhaustedState ∧
      exhaustedState.usedWords ≠ (∅ : Finset String) := by
  constructor
  · unfold handleWordGeneration
    rw [if_neg]
    intro hcontra
    have hc : exhaustedState.usedWords.card < designTerms.length := hcontra.2
    revert hc
    decide
  · decide

/-- C2 amended: a word already in the used set is never placed again by the
word-generation step (every newly appended label's text was unused), and once
every vocabulary word has been used the step is the identity: addText is
never invoked, so the used-word set is never reset and no further words are
placed (the reset branch inside addText is unreachable through
handleWordGeneration). -/
theorem word_generation_no_reuse_no_reset (st : CanvasState)
    (rand mouseX mouseY rotation : ℚ) (pick : Nat) :
    (∀ w ∈ (handleWordGeneration st rand mouseX mouseY rotation pick).renderedWords,
        w ∈ st.renderedWords ∨ w.text ∉ st.usedWords) ∧
    (designTerms.length ≤ st.usedWords.card →
      handleWordGeneration st rand mouseX mouseY rotation pick = st) := by
  constructor
  · intro w hw
    unfold handleWordGeneration at hw
    by_cases hguard : 19/20 < rand ∧ st.usedWords.card < designTerms.length
    · rw [if_pos hguard] at hw
      unfold addText at hw
      by_cases hdist : distSq (mouseX + 30) mouseY st.lastTextPosition.1
          st.lastTextPosition.2 < 150 ^ 2
      · rw [if_pos hdist] at hw
        exact Or.inl hw
      · rw [if_neg hdist] at hw
        by_cases hempty : (designTerms.filter fun term => term ∉ st.usedWords).isEmpty
        · rw [if_pos hempty] at hw
          exact Or.inl hw
        · rw [if_neg hempty] at hw
          simp only [List.mem_append, List.mem_singleton] at hw
          rcases hw with hw | hw
          · exact Or.inl hw
          · right
            have hmem := addText_picked_term_mem st pick (Bool.eq_false_iff.mpr hempty)
            have := List.of_mem_filter hmem
            rw [hw]
            simpa using this
    · rw [if_neg hguard] at hw
      exact Or.inl hw
  · intro hfull
    unfold handleWordGeneration
    rw [if_neg]
    intro hcontra
    exact absurd hcontra.2 (not_lt.mpr hfull)

/-- Witness for C2 amended, at a state carrying one rendered word and an
empty used set (where the step is a no-op because the random draw 0 fails
the 0.95 guard), and at the exhausted state (where the step is the
identity). -/
theorem word_generation_no_reuse_no_reset_witness :
    ((⟨"a", 0, 0, 0, 0⟩ : WordRecord) ∈ [(⟨"a", 0, 0, 0, 0⟩ : WordRecord)] ∨
      "a" ∉ (∅ : Finset String)) ∧
    handleWordGeneration exhaustedState (21/20) 500 500 0 3 = exhaustedState := by
  constructor
  · have hstep : handleWordGeneration ⟨∅, [⟨"a", 0, 0, 0, 0⟩], (0, 0)⟩ 0 0 0 0 0
        = ⟨∅, [⟨"a", 0, 0, 0, 0⟩], (0, 0)⟩ := by
      unfold handleWordGeneration
      rw [if_neg]
      rintro ⟨h, -⟩
      norm_num at h
    exact (word_generation_no_reuse_no_reset ⟨∅, [⟨"a", 0, 0, 0, 0⟩], (0, 0)⟩ 0 0 0 0 0).1
      ⟨"a", 0, 0, 0, 0⟩ (by rw [hstep]; exact List.mem_singleton.mpr rfl)
  · exact (word_generation_no_reuse_no_reset exhaustedState (21/20) 500 500 0 3).2
      (by decide)

/-! ### Scroll observer parallax effect (ScrollObserverController.
setupParallaxEffect, main.js lines 347-358)

The scroll listener calls requestAnimationFrame on every scroll event, so
every scroll event queues one fresh callback; all callbacks queued since the
previous frame run in the next rendered frame.  Each callback recomputes the
transform of every parallax layer from window.scrollY at callback time. -/

/-- A parallax layer: its data-depth attribute, absent when the element has
no such attribute (layer.dataset.depth is undefined and the source falls
back to 0.1). -/
structure ParallaxLayer where
  depth : Option ℚ
deriving DecidableEq

/-- The depth factor used in the transform: dataset.depth or the 0.1
default (main.js line 352). -/
def depthValue (l : ParallaxLayer) : ℚ :=
  l.depth.getD (1/10)

/-- Event-loop state for the parallax effect: the number of
requestAnimationFrame callbacks currently queued, the current scroll offset,
the transforms last written to the layers, and how many recomputations ran
in the most recently rendered frame. -/
structure ParallaxState where
  pending : Nat
  scrollY : ℚ
  transforms : List ℚ
  recomputesInFrame : Nat
deriving DecidableEq

/-- The scroll listener (main.js lines 349-350): records the new scroll
offset and queues one more requestAnimationFrame callback. -/
def onScroll (s : ParallaxState) (y : ℚ) : ParallaxState :=
  { s with scrollY := y, pending := s.pending + 1 }

/-- A sequence of scroll events. -/
def onScrolls (s : ParallaxState) (ys : List ℚ) : ParallaxState :=
  ys.foldl onScroll s

/-- One rendered animation frame: every queued callback runs (main.js lines
350-356), each recomputing scrollY * depth for every layer; the number of
recomputations in the frame equals the number of queued callbacks. -/
def renderFrame (layers : List ParallaxLayer) (s : ParallaxState) : ParallaxState :=
  { pending := 0
    scrollY := s.scrollY
    transforms :=
      if s.pending = 0 then s.transforms
      else layers.map fun l => s.scrollY * depthValue l
    recomputesInFrame := s.pending }

theorem onScrolls_pending (ys : List ℚ) (s : ParallaxState) :
    (onScrolls s ys).pending = s.pending + ys.length := by
  induction ys generalizing s with
  | nil => simp [onScrolls]
  | cons y ys ih =>
    show (onScrolls (onScroll s y) ys).pending = s.pending + (y :: ys).length
    rw [ih]
    simp [onScroll]
    omega

theorem onScrolls_scrollY (ys : List ℚ) (s : ParallaxState) :
    (onScrolls s ys).scrollY = ys.getLast?.getD s.scrollY := by
  induction ys generalizing s with
  | nil => rfl
  | cons y ys ih =>
    show (onScrolls (onScroll s y) ys).scrollY = (y :: ys).getLast?.getD s.scrollY
    rw [ih]
    cases ys with
    | nil => rfl
    | cons z zs => rw [List.getLast?_cons_cons]; rfl

/-- C4 counterexample: two scroll events arriving before the next rendered
frame each queue their own requestAnimationFrame callback, so that frame
runs the recomputation twice — the source has no once-per-frame coalescing
flag, refuting "at most once per rendered animation frame". -/
theorem parallax_recompute_not_coalesced :
    ¬ (renderFrame [⟨some (1/2)⟩]
        (onScroll (onScroll ⟨0, 0, [], 0⟩ 3) 5)).recomputesInFrame ≤ 1 := by
  show ¬ (2 : Nat) ≤ 1
  omega

/-- C4 amended: the vertical transform applied to each parallax layer equals
the scroll offset at frame time multiplied by the layer's depth factor
(data-depth, defaulting to 0.1), but the recomputation is only deferred to
frame timing, not coalesced: a burst of k scroll events queues k callbacks
and the next rendered frame runs the recomputation exactly k times (plus any
callbacks already pending). -/
theorem parallax_transform_per_frame (layers : List ParallaxLayer)
    (s : ParallaxState) (ys : List ℚ)
    (h : s.pending + ys.length ≠ 0) :
    (renderFrame layers (onScrolls s ys)).recomputesInFrame = s.pending + ys.length ∧
    (renderFrame layers (onScrolls s ys)).transforms
      = layers.map fun l => (ys.getLast?.getD s.scrollY) * depthValue l := by
  refine ⟨?_, ?_⟩
  · show (onScrolls s ys).pending = s.pending + ys.length
    exact onScrolls_pending ys s
  · show (if (onScrolls s ys).pending = 0 then (onScrolls s ys).transforms
        else layers.map fun l => (onScrolls s ys).scrollY * depthValue l)
      = layers.map fun l => (ys.getLast?.getD s.scrollY) * depthValue l
    rw [if_neg (by rw [onScrolls_pending]; exact h), onScrolls_scrollY]

/-- Witness for C4 amended: one scroll event to offset 40 over a layer of
depth 1/2 yields one recomputation and the transform list [20]. -/
theorem parallax_transform_per_frame_witness :
    (renderFrame [⟨some (1/2)⟩] (onScrolls ⟨0, 0, [], 0⟩ [40])).recomputesInFrame
        = (⟨0, 0, [], 0⟩ : ParallaxState).pending + [(40 : ℚ)].length ∧
    (renderFrame [⟨some (1/2)⟩] (onScrolls ⟨0, 0, [], 0⟩ [40])).transforms
      = [(⟨some (1/2)⟩ : ParallaxLayer)].map fun l =>
          ([(40 : ℚ)].getLast?.getD (⟨0, 0, [], 0⟩ : ParallaxState).scrollY) * depthValue l :=
  parallax_transform_per_frame [⟨some (1/2)⟩] ⟨0, 0, [], 0⟩ [40] (by simp)

/-! ### GitHub repository feed renderer (fetchGitHubRepos, main.js lines
500-623)

The network is an explicit oracle.  A fetch either rejects, or responds with
an HTTP status and a JSON body; the body either fails to parse, is an array
of repository records, or is some non-array value.  The rendered container
content is either the list of repository cards (one card per repository) or
a single inline error block. -/

/-- A repository record with the fields the card template reads (main.js
lines 524-606); description, language and homepage can be absent. -/
structure Repo where
  name : String
  description : Option String
  language : Option String
  stargazers_count : Nat
  html_url : String
  homepage : Option String
  isPrivate : Bool
deriving DecidableEq

/-- The JSON body of a GitHub response: a parse failure from
response.json(), an array of repositories, or a non-array value. -/
inductive GitHubBody
  | jsonFailure (msg : String)
  | arr (repos : List Repo)
  | nonArray
deriving DecidableEq

/-- One GitHub fetch outcome: rejection (network failure) or a response. -/
inductive GitHubNet
  | reject (msg : String)
  | resp (status : Nat) (body : GitHubBody)
deriving DecidableEq

/-- The final content of the projects-grid container: repository cards (one
per repository, so no card for an empty list) or a single error block. -/
inductive GridContent
  | cards (repos : List Repo)
  | errorBlock (msg : String)
deriving DecidableEq

/-- fetchGitHubRepos (main.js lines 500-623).  response.ok is status in
[200, 300); a non-ok status throws "GitHub API error: status" which the
catch renders as "Error loading projects: ..." (lines 517-519 and 615-622);
a json() rejection is caught the same way; a non-array body renders the
fixed invalid-data error text (lines 607-614); an array renders one card per
repository (lines 523-606). -/
def fetchGitHubRepos : GitHubNet → GridContent
  | GitHubNet.reject msg => GridContent.errorBlock ("Error loading projects: " ++ msg)
  | GitHubNet.resp status body =>
    if status < 200 ∨ 300 ≤ status then
      GridContent.errorBlock ("Error loading projects: GitHub API error: " ++ toString status)
    else
      match body with
      | GitHubBody.jsonFailure msg =>
          GridContent.errorBlock ("Error loading projects: " ++ msg)
      | GitHubBody.arr repos => GridContent.cards repos
      | GitHubBody.nonArray =>
          GridContent.errorBlock
            "Error: Could not load projects. Invalid data received from GitHub API."

/-- Whether the projects-grid container shows the inline error block. -/
def isGridError : GridContent → Bool
  | GridContent.errorBlock _ => true
  | GridContent.cards _ => false

/-- Number of project cards in the projects-grid container. -/
def cardCount : GridContent → Nat
  | GridContent.cards repos => repos.length
  | GridContent.errorBlock _ => 0

/-- Whether a GitHub fetch outcome is a failure in the sense of the spec:
fetch rejection, non-2xx status, or malformed payload shape (unparsable or
non-array body). -/
def ghIsFailure : GitHubNet → Bool
  | GitHubNet.reject _ => true
  | GitHubNet.resp status body =>
    decide (status < 200 ∨ 300 ≤ status) ||
      (match body with
       | GitHubBody.arr _ => false
       | _ => true)

/-! ### Figma design-file feed renderer (getFigmaProjectFiles and
fetchRecentFigmaFiles, main.js lines 635-746) -/

/-- A design file record with the fields the card template reads (main.js
lines 650-700): name, key, optional thumbnail, and last_modified.  The
last-modified date is modelled as a numeric timestamp; the source compares
dates through new Date(...) subtraction, which is the same numeric order. -/
structure FigmaFile where
  name : String
  key : String
  thumbnail_url : Option String
  last_modified : Nat
deriving DecidableEq

/-- A Figma project as listed by the team-projects endpoint. -/
structure FigmaProject where
  id : Nat
  name : String
deriving DecidableEq

/-- One per-project files fetch outcome: a rejection (network failure or a
response.json() rejection — both are caught inside getFigmaProjectFiles), or
a parsed body whose files field is either present or absent (undefined, as
with a non-2xx error body). -/
inductive FigmaFilesNet
  | reject
  | resp (files : Option (List FigmaFile))
deriving DecidableEq

/-- The team-projects fetch outcome: a rejection (fetch or json(), caught by
the top-level try of fetchRecentFigmaFiles), or a parsed body whose projects
field is either present or absent. -/
inductive FigmaTeamNet
  | reject (msg : String)
  | resp (projects : Option (List FigmaProject))
deriving DecidableEq

/-- The final content of the design-projects container: rendered file cards
or a single inline error block. -/
inductive DesignContent
  | filesRender (files : List FigmaFile)
  | errorBlock (msg : String)
deriving DecidableEq

/-- getFigmaProjectFiles (main.js lines 635-648): its own try/catch swallows
any rejection and returns the empty array; otherwise it returns data.files
unchecked — none models the undefined files field flowing back to the
caller. -/
def getFigmaProjectFiles : FigmaFilesNet → Option (List FigmaFile)
  | FigmaFilesNet.reject => some []
  | FigmaFilesNet.resp files => files

/-- The TypeError raised by allFiles.push(...files) when files is undefined
(main.js line 730); the concrete engine text is irrelevant to the claims. -/
def spreadUndefinedErrorText : String :=
  "TypeError: spread of undefined"

/-- The TypeError raised by iterating projectsData.projects when the parsed
body has no projects field (main.js line 728). -/
def projectsNotIterableErrorText : String :=
  "TypeError: projectsData.projects is not iterable"

/-- The aggregation loop of fetchRecentFigmaFiles (main.js lines 727-731):
concatenates each project's files in order; the first project whose files
come back undefined makes the push throw, aborting the loop. -/
def collectFiles (net : Nat → FigmaFilesNet) : List FigmaProject → Except String (List FigmaFile)
  | [] => Except.ok []
  | p :: ps =>
    match getFigmaProjectFiles (net p.id) with
    | none => Except.error spreadUndefinedErrorText
    | some fs =>
      match collectFiles net ps with
      | Except.error msg => Except.error msg
      | Except.ok rest => Except.ok (fs ++ rest)

/-- The descending last-modified order used by the sort comparator
(b.last_modified - a.last_modified, main.js line 734). -/
def dateDesc (a b : FigmaFile) : Prop :=
  b.last_modified ≤ a.last_modified

instance : DecidableRel dateDesc := fun a b =>
  Nat.decLe b.last_modified a.last_modified

instance : IsTotal FigmaFile dateDesc :=
  ⟨fun a b => (Nat.le_total a.last_modified b.last_modified).symm⟩

instance : IsTrans FigmaFile dateDesc :=
  ⟨fun _ _ _ hab hbc => Nat.le_trans hbc hab⟩

/-- fetchRecentFigmaFiles (main.js lines 708-746): renders an error block if
the team fetch rejects, if its body has no projects field, or if some
project's files field is missing; otherwise sorts all collected files by
last-modified descending (a stable comparator sort, modelled by insertion
sort), keeps the first 5, and renders them. -/
def fetchRecentFigmaFiles (team : FigmaTeamNet) (net : Nat → FigmaFilesNet) : DesignContent :=
  match team with
  | FigmaTeamNet.reject msg => DesignContent.errorBlock msg
  | FigmaTeamNet.resp none => DesignContent.errorBlock projectsNotIterableErrorText
  | FigmaTeamNet.resp (some projects) =>
    match collectFiles net projects with
    | Except.error msg => DesignContent.errorBlock msg
    | Except.ok allFiles =>
        DesignContent.filesRender ((allFiles.insertionSort dateDesc).take 5)

/-- Whether the design-projects container shows the inline error block. -/
def isDesignError : DesignContent → Bool
  | DesignContent.errorBlock _ => true
  | DesignContent.filesRender _ => false

/-- Whether the aggregation loop aborts with a thrown TypeError. -/
def collectIsError : Except String (List FigmaFile) → Bool
  | Except.error _ => true
  | Except.ok _ => false

theorem collectFiles_error_iff_missing (net : Nat → FigmaFilesNet)
    (ps : List FigmaProject) :
    collectIsError (collectFiles net ps)
      = ps.any fun p => (getFigmaProjectFiles (net p.id)).isNone := by
  induction ps with
  | nil => rfl
  | cons p ps ih =>
    show collectIsError
        (match getFigmaProjectFiles (net p.id) with
         | none => Except.error spreadUndefinedErrorText
         | some fs =>
           match collectFiles net ps with
           | Except.error msg => Except.error msg
           | Except.ok rest => Except.ok (fs ++ rest)) = _
    cases hfiles : getFigmaProjectFiles (net p.id) with
    | none => simp [collectIsError, hfiles]
    | some fs =>
      cases hrest : collectFiles net ps with
      | error msg =>
        have := ih
        rw [hrest] at this
        simp [collectIsError, hfiles, List.any_cons, ← this]
      | ok rest =>
        have := ih
        rw [hrest] at this
        simp [collectIsError, hfiles, List.any_cons, ← this]

/-- C3 counterexample: when the team response lists one project and that
project's files fetch rejects, getFigmaProjectFiles swallows the failure
(its catch returns the empty array, main.js lines 644-647), so the renderer
renders an empty file list with no inline error message — a network failure
at the design-file renderer that is not surfaced. -/
theorem figma_project_fetch_failure_swallowed :
    fetchRecentFigmaFiles (FigmaTeamNet.resp (some [⟨1, "p"⟩]))
        (fun _ => FigmaFilesNet.reject) = DesignContent.filesRender [] ∧
      isDesignError (fetchRecentFigmaFiles (FigmaTeamNet.resp (some [⟨1, "p"⟩]))
        (fun _ => FigmaFilesNet.reject)) = false := by
  constructor <;> rfl

/-- C3 amended: every failure is caught locally (both renderers always
produce container content, never an escaping exception).  The repository
feed surfaces an inline error exactly for its failures (rejection, non-2xx
status, malformed body).  The design-file feed surfaces an inline error when
the team request rejects or its body lacks the projects field, and exactly
when some listed project's files field is missing — but a rejected
per-project files request is swallowed by getFigmaProjectFiles and yields an
empty contribution with no inline error. -/
theorem feed_failure_surfacing (gh : GitHubNet) (msg : String)
    (ps : List FigmaProject) (net : Nat → FigmaFilesNet) :
    isGridError (fetchGitHubRepos gh) = ghIsFailure gh ∧
    isDesignError (fetchRecentFigmaFiles (FigmaTeamNet.reject msg) net) = true ∧
    isDesignError (fetchRecentFigmaFiles (FigmaTeamNet.resp none) net) = true ∧
    isDesignError (fetchRecentFigmaFiles (FigmaTeamNet.resp (some ps)) net)
      = ps.any fun p => (getFigmaProjectFiles (net p.id)).isNone := by
  refine ⟨?_, rfl, rfl, ?_⟩
  · cases gh with
    | reject m => rfl
    | resp status body =>
      by_cases hst : status < 200 ∨ 300 ≤ status
      · show isGridError (if status < 200 ∨ 300 ≤ status then _ else _) = _
        rw [if_pos hst]
        simp [isGridError, ghIsFailure, hst]
      · show isGridError (if status < 200 ∨ 300 ≤ status then _ else _) = _
        rw [if_neg hst]
        cases body <;> simp [isGridError, ghIsFailure, hst]
  · rw [← collectFiles_error_iff_missing]
    show isDesignError (match collectFiles net ps with
        | Except.error m => DesignContent.errorBlock m
        | Except.ok allFiles =>
            DesignContent.filesRender ((allFiles.insertionSort dateDesc).take 5)) = _
    cases collectFiles net ps <;> rfl

/-- C6: a successful (status 200) response whose body is the empty array
renders zero project cards and no error; a 404 response renders exactly one
error block whose text contains the status-derived message
"GitHub API error: 404", whatever the body. -/
theorem github_empty_array_and_404 (body : GitHubBody) :
    fetchGitHubRepos (GitHubNet.resp 200 (GitHubBody.arr [])) = GridContent.cards [] ∧
    cardCount (fetchGitHubRepos (GitHubNet.resp 200 (GitHubBody.arr []))) = 0 ∧
    isGridError (fetchGitHubRepos (GitHubNet.resp 200 (GitHubBody.arr []))) = false ∧
    fetchGitHubRepos (GitHubNet.resp 404 body)
      = GridContent.errorBlock "Error loading projects: GitHub API error: 404" :=
  ⟨rfl, rfl, rfl, rfl⟩

/-- C7: for a team response listing 2 projects whose files fetches succeed
with together 7 files of pairwise distinct last-modified dates, the renderer
renders exactly 5 files, ordered by last-modified date strictly descending,
and every file left out is strictly older than every rendered file — i.e.
exactly the 5 most recently modified files are kept. -/
theorem figma_renders_five_most_recent (p1 p2 : FigmaProject)
    (net : Nat → FigmaFilesNet) (fs1 fs2 : List FigmaFile)
    (h1 : net p1.id = FigmaFilesNet.resp (some fs1))
    (h2 : net p2.id = FigmaFilesNet.resp (some fs2))
    (hlen : (fs1 ++ fs2).length = 7)
    (hdist : (fs1 ++ fs2).Pairwise fun a b => a.last_modified ≠ b.last_modified) :
    ∃ kept : List FigmaFile,
      fetchRecentFigmaFiles (FigmaTeamNet.resp (some [p1, p2])) net
          = DesignContent.filesRender kept ∧
        kept.length = 5 ∧
        kept.Pairwise (fun a b => b.last_modified < a.last_modified) ∧
        ∀ f ∈ fs1 ++ fs2, f ∉ kept → ∀ g ∈ kept, f.last_modified < g.last_modified := by
  have hcollect : collectFiles net [p1, p2] = Except.ok (fs1 ++ fs2) := by
    simp [collectFiles, h1, h2, getFigmaProjectFiles]
  refine ⟨((fs1 ++ fs2).insertionSort dateDesc).take 5, ?_, ?_, ?_, ?_⟩
  · show (match collectFiles net [p1, p2] with
      | Except.error msg => DesignContent.errorBlock msg
      | Except.ok allFiles =>
          DesignContent.filesRender ((allFiles.insertionSort dateDesc).take 5)) = _
    rw [hcollect]
  · rw [List.length_take, List.length_insertionSort, hlen]
    decide
  · have hsorted : ((fs1 ++ fs2).insertionSort dateDesc).Pairwise dateDesc :=
      List.sorted_insertionSort dateDesc (fs1 ++ fs2)
    have hperm : List.Perm ((fs1 ++ fs2).insertionSort dateDesc) (fs1 ++ fs2) :=
      List.perm_insertionSort dateDesc (fs1 ++ fs2)
    have hdistS : ((fs1 ++ fs2).insertionSort dateDesc).Pairwise
        (fun a b => a.last_modified ≠ b.last_modified) :=
      (hperm.pairwise_iff fun h => h.symm).mpr hdist
    have hstrict : ((fs1 ++ fs2).insertionSort dateDesc).Pairwise
        (fun a b => b.last_modified < a.last_modified) :=
      (hsorted.and hdistS).imp fun h => lt_of_le_of_ne h.1 h.2.symm
    exact List.Pairwise.sublist (List.take_sublist 5 _) hstrict
  · intro f hf hfnot g hg
    have hperm : List.Perm ((fs1 ++ fs2).insertionSort dateDesc) (fs1 ++ fs2) :=
      List.perm_insertionSort dateDesc (fs1 ++ fs2)
    have hsorted : ((fs1 ++ fs2).insertionSort dateDesc).Pairwise dateDesc :=
      List.sorted_insertionSort dateDesc (fs1 ++ fs2)
    have hdistS : ((fs1 ++ fs2).insertionSort dateDesc).Pairwise
        (fun a b => a.last_modified ≠ b.last_modified) :=
      (hperm.pairwise_iff fun h => h.symm).mpr hdist
    have hstrict : ((fs1 ++ fs2).insertionSort dateDesc).Pairwise
        (fun a b => b.last_modified < a.last_modified) :=
      (hsorted.and hdistS).imp fun h => lt_of_le_of_ne h.1 h.2.symm
    have hfS : f ∈ (fs1 ++ fs2).insertionSort dateDesc := hperm.mem_iff.mpr hf
    have hsplit := List.take_append_drop 5 ((fs1 ++ fs2).insertionSort dateDesc)
    rw [← hsplit] at hstrict hfS
    rcases List.mem_append.mp hfS with hfk | hfd
    · exact absurd hfk hfnot
    · exact (List.pairwise_append.mp hstrict).2.2 g hg f hfd

/-- Sample files for the first project of the C7 witness (dates 10, 30, 20). -/
def sampleFiles1 : List FigmaFile :=
  [⟨"d10", "k1", none, 10⟩, ⟨"d30", "k2", none, 30⟩, ⟨"d20", "k3", none, 20⟩]

/-- Sample files for the second project of the C7 witness
(dates 70, 40, 60, 50). -/
def sampleFiles2 : List FigmaFile :=
  [⟨"d70", "k4", none, 70⟩, ⟨"d40", "k5", none, 40⟩,
   ⟨"d60", "k6", none, 60⟩, ⟨"d50", "k7", none, 50⟩]

/-- Sample network oracle for the C7 witness: project 1 returns
sampleFiles1, every other project returns sampleFiles2. -/
def sampleFigmaNet : Nat → FigmaFilesNet := fun i =>
  if i = 1 then FigmaFilesNet.resp (some sampleFiles1)
  else FigmaFilesNet.resp (some sampleFiles2)

/-- Witness for C7 on a mocked team of 2 projects with 7 files of distinct
dates. -/
theorem figma_renders_five_most_recent_witness :
    ∃ kept : List FigmaFile,
      fetchRecentFigmaFiles
          (FigmaTeamNet.resp (some [⟨1, "alpha"⟩, ⟨2, "beta"⟩])) sampleFigmaNet
          = DesignContent.filesRender kept ∧
        kept.length = 5 ∧
        kept.Pairwise (fun a b => b.last_modified < a.last_modified) ∧
        ∀ f ∈ sampleFiles1 ++ sampleFiles2, f ∉ kept →
          ∀ g ∈ kept, f.last_modified < g.last_modified :=
  figma_renders_five_most_recent ⟨1, "alpha"⟩ ⟨2, "beta"⟩ sampleFigmaNet
    sampleFiles1 sampleFiles2 rfl rfl (by decide) (by decide)

end Portfolio
